import Mathlib

/-
Verification of the Part 3 training notebook
(intro-to-pytorch/Part 3 - Training Neural Networks (Exercises).ipynb).

The notebook is the only code in the repository (the remaining files are
markdown prose).  Its sixteen code cells are embedded below as a deep
syntax of Python statements restricted to the statement forms that occur
in the notebook, together with the statement forms whose absence the
specification asserts (try/except, raise, class definitions, thread or
process spawning, async constructs, callback registration, RNG seeding,
break).  Each cell definition mirrors one code cell, statement by
statement, in document order.
-/

/-- Layers passed to nn.Sequential in the notebook. -/
inductive Layer where
  | linear (inFeatures outFeatures : Nat)
  | relu
  | logSoftmax (dim : Nat)
deriving DecidableEq, Repr

/-- Loss criteria constructed in the notebook. -/
inductive LossKind where
  | crossEntropy
  | nll
deriving DecidableEq, Repr

mutual

/-- Python statements of the notebook cells.  Constructors tagged
"absent" never occur in any cell; they are present so that their absence
is expressible and decidable. -/
inductive Stmt where
  | importMod (module : String)
  | importFrom (module : String) (names : List String)
  | magicLine (text : String)
  | assignTransformCompose (target : String)
  | assignMNIST (target : String) (download train : Bool)
  | assignDataLoader (target dataset : String) (batchSize : Nat) (shuffle : Bool)
  | assignSequential (target : String) (layers : List Layer)
  | assignCriterion (target : String) (loss : LossKind)
  | assignSGD (target modelVar : String) (lr : ℚ)
  | assignNextBatch (imgs lbls loader : String)
  | assignFlattenView (target src : String)
  | assignIndexView (target src : String) (index d0 d1 : Nat)
  | resizeInPlace (v : String) (d0 d1 : Nat)
  | assignForward (target modelVar input : String)
  | assignLoss (target criterion output labels : String)
  | assignNatLit (target : String) (n : Nat)
  | assignRandn (target : String) (dims : List Nat) (requiresGrad : Bool)
  | assignPow (target base : String) (k : Nat)
  | assignMean (target src : String)
  | assignExp (target src : String)
  | callBackward (v : String)
  | callZeroGrad (opt : String)
  | callStep (opt : String)
  | augAddItem (target lossVar : String)
  | printCall (args : List String)
  | printAvgLoss (accVar loaderVar : String)
  | exprCallHelper (fn : String) (args : List String)
  | forRange (var bound : String) (body elseBody : StmtList)
  | forLoader (v1 v2 loader : String) (body elseBody : StmtList)
  | withNoGrad (body : StmtList)
  | tryExcept (body handler : StmtList)
  | raiseStmt
  | classDef (cname : String) (body : StmtList)
  | breakStmt
  | spawnThread
  | spawnProcess
  | asyncFunDef (body : StmtList)
  | awaitCall
  | registerCallback
  | manualSeed (n : Nat)

/-- Sequences of statements (a block body). -/
inductive StmtList where
  | nil
  | cons (s : Stmt) (rest : StmtList)

end

/-- Conversion from a Lean list literal to a statement block. -/
def StmtList.ofList : List Stmt → StmtList
  | [] => .nil
  | s :: r => .cons s (StmtList.ofList r)

mutual

/-- All statements of a statement tree, the statement itself first,
then the contents of its nested blocks. -/
def flatStmt : Stmt → List Stmt
  | .forRange v b bd eb => .forRange v b bd eb :: (flatStmtList bd ++ flatStmtList eb)
  | .forLoader v1 v2 l bd eb => .forLoader v1 v2 l bd eb :: (flatStmtList bd ++ flatStmtList eb)
  | .withNoGrad bd => .withNoGrad bd :: flatStmtList bd
  | .tryExcept bd h => .tryExcept bd h :: (flatStmtList bd ++ flatStmtList h)
  | .classDef n bd => .classDef n bd :: flatStmtList bd
  | .asyncFunDef bd => .asyncFunDef bd :: flatStmtList bd
  | s => [s]

/-- All statements of a block, nested blocks included. -/
def flatStmtList : StmtList → List Stmt
  | .nil => []
  | .cons s r => flatStmt s ++ flatStmtList r

end

/-- True when some statement of the block (nested blocks included)
satisfies the predicate. -/
def stmtsAny (p : Stmt → Bool) (ss : StmtList) : Bool :=
  (flatStmtList ss).any p

/-- One code cell of the notebook: its recorded execution count and its
statements. -/
structure Cell where
  execCount : Nat
  stmts : StmtList

/-- Layers of the model of the first forward-pass cell (execution count
30): Linear(784,128), ReLU, Linear(128,64), ReLU, Linear(64,10). -/
def firstModelLayers : List Layer :=
  [.linear 784 128, .relu, .linear 128 64, .relu, .linear 64 10]

/-- Layers of the log-softmax models (execution counts 9, 15, 37). -/
def trainModelLayers : List Layer :=
  [.linear 784 128, .relu, .linear 128 64, .relu, .linear 64 10, .logSoftmax 1]

/-- Cell with execution count 4: imports, the transform, the MNIST
dataset, and the DataLoader with batch_size=64 and shuffle=True. -/
def importsDataCell : Cell :=
  ⟨4, .ofList
    [ .importMod "torch"
    , .importFrom "torch" ["nn"]
    , .importMod "torch.nn.functional"
    , .importFrom "torchvision" ["datasets", "transforms"]
    , .assignTransformCompose "transform"
    , .assignMNIST "trainset" true true
    , .assignDataLoader "trainloader" "trainset" 64 true ]⟩

/-- Cell with execution count 30: feed-forward network, cross-entropy
criterion, one batch, flatten, forward pass, loss, print. -/
def crossEntropyCell : Cell :=
  ⟨30, .ofList
    [ .assignSequential "model" firstModelLayers
    , .assignCriterion "criterion" .crossEntropy
    , .assignNextBatch "images" "labels" "trainloader"
    , .assignFlattenView "images" "images"
    , .assignForward "logits" "model" "images"
    , .assignLoss "loss" "criterion" "logits" "labels"
    , .printCall ["loss"] ]⟩

/-- Cell with execution count 9: log-softmax network with NLL loss. -/
def nllLossCell : Cell :=
  ⟨9, .ofList
    [ .assignSequential "model" trainModelLayers
    , .assignCriterion "criterion" .nll
    , .assignNextBatch "images" "labels" "trainloader"
    , .assignFlattenView "images" "images"
    , .assignForward "logits" "model" "images"
    , .assignLoss "loss" "criterion" "logits" "labels"
    , .printCall ["loss"] ]⟩

/-- Cell with execution count 21: x = torch.randn(2,2, requires_grad=True). -/
def randnCell : Cell :=
  ⟨21, .ofList [ .assignRandn "x" [2, 2] true, .printCall ["x"] ]⟩

/-- Cell with execution count 22: y = x**2. -/
def powCell : Cell :=
  ⟨22, .ofList [ .assignPow "y" "x" 2, .printCall ["y"] ]⟩

/-- Cell with execution count 23: print(y.grad_fn). -/
def gradFnCell : Cell :=
  ⟨23, .ofList [ .printCall ["y.grad_fn"] ]⟩

/-- Cell with execution count 24: z = y.mean(). -/
def meanCell : Cell :=
  ⟨24, .ofList [ .assignMean "z" "y", .printCall ["z"] ]⟩

/-- Cell with execution count 25: print(x.grad). -/
def gradNoneCell : Cell :=
  ⟨25, .ofList [ .printCall ["x.grad"] ]⟩

/-- Cell with execution count 26: z.backward() and gradient prints. -/
def backwardScalarCell : Cell :=
  ⟨26, .ofList [ .callBackward "z", .printCall ["x.grad"], .printCall ["x/2"] ]⟩

/-- Cell with execution count 15: log-softmax network, batch, flatten,
NLL criterion, forward pass, loss. -/
def lossAutogradCell : Cell :=
  ⟨15, .ofList
    [ .assignSequential "model" trainModelLayers
    , .assignNextBatch "images" "labels" "trainloader"
    , .assignFlattenView "images" "images"
    , .assignCriterion "criterion" .nll
    , .assignForward "logits" "model" "images"
    , .assignLoss "loss" "criterion" "logits" "labels"
    , .printCall ["loss"] ]⟩

/-- Cell with execution count 16: loss.backward() between two gradient
prints. -/
def backwardLossCell : Cell :=
  ⟨16, .ofList
    [ .printCall ["model[0].weight.grad"]
    , .callBackward "loss"
    , .printCall ["model[0].weight.grad"] ]⟩

/-- Cell with execution count 31: optim import and SGD optimizer with
lr=0.01. -/
def optimizerCell : Cell :=
  ⟨31, .ofList
    [ .importFrom "torch" ["optim"]
    , .assignSGD "optimizer" "model" (1 / 100) ]⟩

/-- Cell with execution count 32: one training step up to backward. -/
def singleStepCell : Cell :=
  ⟨32, .ofList
    [ .printCall ["model[0].weight"]
    , .assignNextBatch "images" "labels" "trainloader"
    , .resizeInPlace "images" 64 784
    , .callZeroGrad "optimizer"
    , .assignForward "output" "model" "images"
    , .assignLoss "loss" "criterion" "output" "labels"
    , .callBackward "loss"
    , .printCall ["model[0].weight.grad"] ]⟩

/-- Cell with execution count 33: optimizer.step() and weight print. -/
def stepCell : Cell :=
  ⟨33, .ofList [ .callStep "optimizer", .printCall ["model[0].weight"] ]⟩

/-- Body of the inner batch loop of the training cell (execution count
37), one statement per source line: flatten the images, clear the
gradients, forward pass, loss, backward pass, optimizer step, and the
running-loss accumulation. -/
def trainBodyStmts : List Stmt :=
  [ .assignFlattenView "images" "images"
  , .callZeroGrad "optimizer"
  , .assignForward "logits" "model" "images"
  , .assignLoss "loss" "criterion" "logits" "labels"
  , .callBackward "loss"
  , .callStep "optimizer"
  , .augAddItem "running_loss" "loss" ]

/-- Body of the epoch loop of the training cell: running_loss = 0, the
batch loop over trainloader, and the for/else print of the average. -/
def epochBodyStmts : List Stmt :=
  [ .assignNatLit "running_loss" 0
  , .forLoader "images" "labels" "trainloader"
      (.ofList trainBodyStmts)
      (.ofList [ .printAvgLoss "running_loss" "trainloader" ]) ]

/-- Cell with execution count 37, the training loop: model, NLL
criterion, SGD with lr=0.001, epochs = 10, and the epoch loop. -/
def trainingLoopCell : Cell :=
  ⟨37, .ofList
    [ .assignSequential "model" trainModelLayers
    , .assignCriterion "criterion" .nll
    , .assignSGD "optimizer" "model" (1 / 1000)
    , .assignNatLit "epochs" 10
    , .forRange "epoch" "epochs" (.ofList epochBodyStmts) .nil ]⟩

/-- Cell with execution count 60, the prediction cell: a batch, one
image reshaped to 1 x 784, a forward pass inside torch.no_grad(), the
exponential of the log-probabilities, and the helper display call. -/
def predictionCell : Cell :=
  ⟨60, .ofList
    [ .magicLine "%matplotlib inline"
    , .importMod "helper"
    , .assignNextBatch "images" "labels" "trainloader"
    , .assignIndexView "img" "images" 0 1 784
    , .withNoGrad (.ofList [ .assignForward "logps" "model" "img" ])
    , .assignExp "ps" "logps"
    , .exprCallHelper "helper.view_classify" ["img", "ps"] ]⟩

/-- The sixteen code cells of the notebook, in document order. -/
def notebookCells : List Cell :=
  [ importsDataCell, crossEntropyCell, nllLossCell, randnCell, powCell
  , gradFnCell, meanCell, gradNoneCell, backwardScalarCell, lossAutogradCell
  , backwardLossCell, optimizerCell, singleStepCell, stepCell
  , trainingLoopCell, predictionCell ]

/-
Training-phase abstraction of the statements of the inner batch loop,
used to state order properties of the loop body.
-/

/-- Phases of one iteration of the training loop. -/
inductive Phase where
  | flattenPhase
  | gradResetPhase
  | forwardPhase
  | lossPhase
  | backwardPhase
  | stepPhase
  | accumulatePhase
deriving DecidableEq, Repr, BEq

/-- Phase of a statement of the batch-loop body. -/
def phaseOf : Stmt → Option Phase
  | .assignFlattenView _ _ => some .flattenPhase
  | .callZeroGrad _ => some .gradResetPhase
  | .assignForward _ _ _ => some .forwardPhase
  | .assignLoss _ _ _ _ => some .lossPhase
  | .callBackward _ => some .backwardPhase
  | .callStep _ => some .stepPhase
  | .augAddItem _ _ => some .accumulatePhase
  | _ => none

/-- Phases of the batch-loop body in program order. -/
def iterationPhases : List Phase := trainBodyStmts.filterMap phaseOf

/-- Phases the framework performs wholly inside a single library call;
the running-loss accumulation is repository-side Python arithmetic. -/
def frameworkPhase : Phase → Bool
  | .accumulatePhase => false
  | _ => true

/-- Subsequence test: every element of the first list occurs in the
second, in the same relative order. -/
def isSubseqOf [BEq α] : List α → List α → Bool
  | [], _ => true
  | _ :: _, [] => false
  | a :: as, b :: bs => if a == b then isSubseqOf as bs else isSubseqOf (a :: as) bs

/-- Head test: the second list begins with the first. -/
def beginsWith [BEq α] : List α → List α → Bool
  | [], _ => true
  | _ :: _, [] => false
  | a :: as, b :: bs => a == b && beginsWith as bs

/-- Contiguous-run test: the first list occurs as a contiguous segment
of the second. -/
def containsRun [BEq α] : List α → List α → Bool
  | pat, [] => pat.isEmpty
  | pat, b :: bs => beginsWith pat (b :: bs) || containsRun pat bs

/-
Operational model of the training cell.  Parameters are abstract (any
type P with an abstract update function applied at optimizer.step);
gradients are kept symbolically as the list of (epoch, batch) pairs
whose backward pass contributed to the currently stored gradient, which
is exactly the accumulation behaviour loss.backward() has on the .grad
fields; the per-batch numeric loss values delivered by the library are
an external input lossOf : epoch -> batch -> rational.
-/

/-- Machine state of the training cell: the model parameters, the
symbolic gradient contents, the log of the gradient present at each
optimizer.step call, the running_loss accumulator, and the printed
per-epoch averages. -/
structure TrainState (P : Type) where
  params : P
  grad : List (Nat × Nat)
  stepLog : List (List (Nat × Nat))
  runningLoss : ℚ
  printed : List ℚ

/-- Effect of one flat statement on the training state.  Statements
that construct a model install fresh parameters with no gradient;
zero_grad clears the gradient; backward adds the current batch tag to
the gradient; step applies the abstract update with the stored gradient
and logs that gradient; the running-loss statements update the
accumulator and the printed list; every other statement form touches
neither parameters nor gradients. -/
def applyFlatStmt (upd : P → List (Nat × Nat) → P) (fresh : P)
    (loaderLen : Nat) (lv : ℚ) (tag : Nat × Nat) :
    Stmt → TrainState P → TrainState P
  | .assignSequential _ _, s => { s with params := fresh, grad := [] }
  | .callZeroGrad _, s => { s with grad := [] }
  | .callBackward _, s => { s with grad := s.grad ++ [tag] }
  | .callStep _, s =>
      { s with params := upd s.params s.grad, stepLog := s.stepLog ++ [s.grad] }
  | .augAddItem _ _, s => { s with runningLoss := s.runningLoss + lv }
  | .assignNatLit t n, s =>
      if t = "running_loss" then { s with runningLoss := (n : ℚ) } else s
  | .printAvgLoss _ _, s =>
      { s with printed := s.printed ++ [s.runningLoss / (loaderLen : ℚ)] }
  | _, s => s

/-- One iteration of the batch loop: the seven statements of
trainBodyStmts applied in order, in epoch e on batch b. -/
def runIteration (upd : P → List (Nat × Nat) → P) (fresh : P)
    (lossOf : Nat → Nat → ℚ) (n e b : Nat) (s : TrainState P) : TrainState P :=
  trainBodyStmts.foldl
    (fun st t => applyFlatStmt upd fresh n (lossOf e b) (e, b) t st) s

/-- One epoch of the training loop: running_loss = 0, the batch loop
over the n batches of the loader, then the for/else print of
running_loss / n (the loop has no break, so the else body always
runs). -/
def runEpoch (upd : P → List (Nat × Nat) → P) (fresh : P)
    (lossOf : Nat → Nat → ℚ) (n e : Nat) (s : TrainState P) : TrainState P :=
  let s0 := applyFlatStmt upd fresh n 0 (e, 0) (.assignNatLit "running_loss" 0) s
  let s1 := (List.range n).foldl (fun st b => runIteration upd fresh lossOf n e b st) s0
  applyFlatStmt upd fresh n 0 (e, n) (.printAvgLoss "running_loss" "trainloader") s1

/-- The whole training loop: epochs passes over the loader, starting
from freshly constructed parameters p0 with initial gradient g0. -/
def runTraining (upd : P → List (Nat × Nat) → P) (fresh : P)
    (lossOf : Nat → Nat → ℚ) (p0 : P) (g0 : List (Nat × Nat))
    (n epochs : Nat) : TrainState P :=
  (List.range epochs).foldl (fun st e => runEpoch upd fresh lossOf n e st)
    ⟨p0, g0, [], 0, []⟩

theorem runIteration_eq (upd : P → List (Nat × Nat) → P) (fresh : P)
    (lossOf : Nat → Nat → ℚ) (n e b : Nat) (s : TrainState P) :
    runIteration upd fresh lossOf n e b s =
      ⟨upd s.params [(e, b)], [(e, b)], s.stepLog ++ [[(e, b)]],
        s.runningLoss + lossOf e b, s.printed⟩ := by
  cases s; rfl

theorem batchFold_eq (upd : P → List (Nat × Nat) → P) (fresh : P)
    (lossOf : Nat → Nat → ℚ) (n e : Nat) (bs : List Nat) (s : TrainState P) :
    (bs.foldl (fun st b => runIteration upd fresh lossOf n e b st) s).printed
        = s.printed ∧
    (bs.foldl (fun st b => runIteration upd fresh lossOf n e b st) s).runningLoss
        = s.runningLoss + (bs.map (lossOf e)).sum ∧
    (bs.foldl (fun st b => runIteration upd fresh lossOf n e b st) s).stepLog
        = s.stepLog ++ bs.map (fun b => [(e, b)]) := by
  induction bs generalizing s with
  | nil => simp
  | cons b rest ih =>
    obtain ⟨h1, h2, h3⟩ := ih (runIteration upd fresh lossOf n e b s)
    refine ⟨?_, ?_, ?_⟩
    · rw [List.foldl_cons, h1, runIteration_eq]
    · rw [List.foldl_cons, h2, runIteration_eq]
      simp [add_assoc]
    · rw [List.foldl_cons, h3, runIteration_eq]
      simp

theorem runEpoch_eq (upd : P → List (Nat × Nat) → P) (fresh : P)
    (lossOf : Nat → Nat → ℚ) (n e : Nat) (s : TrainState P) :
    (runEpoch upd fresh lossOf n e s).printed
        = s.printed ++ [((List.range n).map (lossOf e)).sum / (n : ℚ)] ∧
    (runEpoch upd fresh lossOf n e s).stepLog
        = s.stepLog ++ (List.range n).map (fun b => [(e, b)]) := by
  obtain ⟨h1, h2, h3⟩ := batchFold_eq upd fresh lossOf n e (List.range n)
    (applyFlatStmt upd fresh n 0 (e, 0) (.assignNatLit "running_loss" 0) s)
  unfold runEpoch
  cases s
  constructor <;> simp_all [applyFlatStmt]

theorem epochFold_eq (upd : P → List (Nat × Nat) → P) (fresh : P)
    (lossOf : Nat → Nat → ℚ) (n : Nat) (es : List Nat) (s : TrainState P) :
    (es.foldl (fun st e => runEpoch upd fresh lossOf n e st) s).printed
        = s.printed ++ es.map (fun e => ((List.range n).map (lossOf e)).sum / (n : ℚ)) ∧
    (es.foldl (fun st e => runEpoch upd fresh lossOf n e st) s).stepLog
        = s.stepLog ++ (es.map (fun e => (List.range n).map (fun b => [(e, b)]))).flatten := by
  induction es generalizing s with
  | nil => simp
  | cons e rest ih =>
    obtain ⟨h1, h2⟩ := ih (runEpoch upd fresh lossOf n e s)
    obtain ⟨g1, g2⟩ := runEpoch_eq upd fresh lossOf n e s
    refine ⟨?_, ?_⟩ <;> simp [List.foldl_cons, h1, h2, g1, g2]

theorem runTraining_printed (upd : P → List (Nat × Nat) → P) (fresh : P)
    (lossOf : Nat → Nat → ℚ) (p0 : P) (g0 : List (Nat × Nat)) (n epochs : Nat) :
    (runTraining upd fresh lossOf p0 g0 n epochs).printed
      = (List.range epochs).map
          (fun e => ((List.range n).map (lossOf e)).sum / (n : ℚ)) := by
  have h := epochFold_eq upd fresh lossOf n (List.range epochs)
    (⟨p0, g0, [], 0, []⟩ : TrainState P)
  simpa [runTraining] using h.1

theorem runTraining_stepLog (upd : P → List (Nat × Nat) → P) (fresh : P)
    (lossOf : Nat → Nat → ℚ) (p0 : P) (g0 : List (Nat × Nat)) (n epochs : Nat) :
    (runTraining upd fresh lossOf p0 g0 n epochs).stepLog
      = ((List.range epochs).map
          (fun e => (List.range n).map (fun b => [(e, b)]))).flatten := by
  have h := epochFold_eq upd fresh lossOf n (List.range epochs)
    (⟨p0, g0, [], 0, []⟩ : TrainState P)
  simpa [runTraining] using h.2


/-
Control-flow semantics of cells, used to state exception propagation.
An oracle decides which library-call statements raise; the interpreter
is fueled (fuel bounds nesting depth plus loop iterations), and the
number of iterations each loop performs is supplied by an environment,
since range bounds and loader lengths are runtime values.  The catchOn
flag selects between the real Python semantics, in which try/except
swallows exceptions of its body, and an always-propagate semantics that
ignores handlers.  On the notebook, which contains no try/except, the
two coincide: every exception a library call raises propagates out of
the cell unhandled by repository code.
-/

/-- Outcome of executing statements: normal completion, a break signal,
or an uncaught exception. -/
inductive Outcome where
  | ok
  | broke
  | raised (e : String)
deriving DecidableEq, Repr

mutual

/-- Execute one statement. -/
def execStmt (catchOn : Bool) (oracle : Stmt → Option String)
    (env : String → Nat) : Nat → Stmt → Outcome
  | 0, _ => .ok
  | fuel + 1, s =>
    match s with
    | .tryExcept bd h =>
      match execStmts catchOn oracle env fuel bd with
      | .raised e =>
          if catchOn then execStmts catchOn oracle env fuel h else .raised e
      | o => o
    | .forRange _ bound bd eb => execLoop catchOn oracle env fuel (env bound) bd eb
    | .forLoader _ _ ld bd eb => execLoop catchOn oracle env fuel (env ld) bd eb
    | .withNoGrad bd => execStmts catchOn oracle env fuel bd
    | .classDef _ bd => execStmts catchOn oracle env fuel bd
    | .asyncFunDef _ => .ok
    | .breakStmt => .broke
    | .raiseStmt => .raised "raise"
    | t => match oracle t with
           | some e => .raised e
           | none => .ok

/-- Execute a block in order, stopping at a break or an exception. -/
def execStmts (catchOn : Bool) (oracle : Stmt → Option String)
    (env : String → Nat) : Nat → StmtList → Outcome
  | 0, _ => .ok
  | _ + 1, .nil => .ok
  | fuel + 1, .cons s r =>
    match execStmt catchOn oracle env fuel s with
    | .ok => execStmts catchOn oracle env fuel r
    | o => o

/-- Execute a for loop: the body the given number of times, then the
else block; a break skips the else block (Python for/else). -/
def execLoop (catchOn : Bool) (oracle : Stmt → Option String)
    (env : String → Nat) : Nat → Nat → StmtList → StmtList → Outcome
  | 0, _, _, _ => .ok
  | fuel + 1, 0, _, eb => execStmts catchOn oracle env fuel eb
  | fuel + 1, iters + 1, bd, eb =>
    match execStmts catchOn oracle env fuel bd with
    | .ok => execLoop catchOn oracle env fuel iters bd eb
    | .broke => .ok
    | .raised e => .raised e

end

/-- Statement-level try/except detector. -/
def isTryStmt : Stmt → Bool
  | .tryExcept _ _ => true
  | _ => false

/-- Statement-level raise detector. -/
def isRaiseStmt : Stmt → Bool
  | .raiseStmt => true
  | _ => false

/-- Statement-level class-definition detector. -/
def isClassDefStmt : Stmt → Bool
  | .classDef _ _ => true
  | _ => false

/-- Statement-level break detector. -/
def isBreakStmt : Stmt → Bool
  | .breakStmt => true
  | _ => false

theorem exec_catch_indep (oracle : Stmt → Option String) (env : String → Nat) :
    ∀ fuel : Nat,
      (∀ s : Stmt, (flatStmt s).any isTryStmt = false →
        execStmt true oracle env fuel s = execStmt false oracle env fuel s) ∧
      (∀ ss : StmtList, stmtsAny isTryStmt ss = false →
        execStmts true oracle env fuel ss = execStmts false oracle env fuel ss) ∧
      (∀ (k : Nat) (bd eb : StmtList), stmtsAny isTryStmt bd = false →
        stmtsAny isTryStmt eb = false →
        execLoop true oracle env fuel k bd eb = execLoop false oracle env fuel k bd eb) := by
  intro fuel
  induction fuel with
  | zero => exact ⟨fun _ _ => rfl, fun _ _ => rfl, fun _ _ _ _ _ => rfl⟩
  | succ fuel ih =>
    obtain ⟨ihS, ihL, ihK⟩ := ih
    refine ⟨?_, ?_, ?_⟩
    · intro s h
      cases s <;> try rfl
      case tryExcept bd hdl => simp [flatStmt, isTryStmt] at h
      case forRange v bound bd eb =>
        simp only [flatStmt, List.any_cons, List.any_append, Bool.or_eq_false_iff,
          isTryStmt] at h
        simp only [execStmt]
        exact ihK (env bound) bd eb h.2.1 h.2.2
      case forLoader v1 v2 ld bd eb =>
        simp only [flatStmt, List.any_cons, List.any_append, Bool.or_eq_false_iff,
          isTryStmt] at h
        simp only [execStmt]
        exact ihK (env ld) bd eb h.2.1 h.2.2
      case withNoGrad bd =>
        simp only [flatStmt, List.any_cons, List.any_append, Bool.or_eq_false_iff,
          isTryStmt] at h
        simp only [execStmt]
        exact ihL bd h.2
      case classDef cname bd =>
        simp only [flatStmt, List.any_cons, List.any_append, Bool.or_eq_false_iff,
          isTryStmt] at h
        simp only [execStmt]
        exact ihL bd h.2
    · intro ss h
      cases ss with
      | nil => rfl
      | cons s r =>
        simp only [stmtsAny, flatStmtList, List.any_append, Bool.or_eq_false_iff] at h
        simp only [execStmts]
        rw [ihS s h.1]
        cases execStmt false oracle env fuel s
        case ok => exact ihL r h.2
        case broke => rfl
        case raised e => rfl
    · intro k bd eb hb he
      cases k with
      | zero =>
        simp only [execLoop]
        exact ihL eb he
      | succ k =>
        simp only [execLoop]
        rw [ihL bd hb]
        cases execStmts false oracle env fuel bd
        case ok => exact ihK k bd eb hb he
        case broke => rfl
        case raised e => rfl

/-
Shape semantics of the models, for the data-pipeline claim.
-/

/-- Output vector size of one layer on an input vector of size n; none
on a dimension mismatch.  Linear(i,o) maps size i to size o; ReLU and
LogSoftmax preserve the size. -/
def layerOut : Layer → Nat → Option Nat
  | .linear i o, n => if n = i then some o else none
  | .relu, n => some n
  | .logSoftmax _, n => some n

/-- Per-image vector size after a stack of layers. -/
def modelShape (ls : List Layer) (n : Nat) : Option Nat :=
  ls.foldl (fun acc l => acc.bind (layerOut l)) (some n)

/-- Modelled from the spec: the external MNIST dataset (downloaded by
the notebook, not part of the repository) delivers images as 1 x 28 x 28
tensors; per spec section 3 the input image batch is flattened to a
vector per image. -/
def mnistImageDims : List Nat := [1, 28, 28]

/-- Element count of the per-image flattened vector produced by
images.view(images.shape[0], -1). -/
def flattenedSize (dims : List Nat) : Nat := dims.foldl (· * ·) 1

/-
The per-epoch training losses recorded in the captured stdout of the
training cell (execution count 37), as exact rationals of the printed
decimals.
-/

/-- The ten Training loss values printed in the recorded output of the
training-loop cell, in print order. -/
def recordedLosses : List ℚ :=
  [ 2220362721984066 / 10 ^ 15
  , 19394281483662408 / 10 ^ 16
  , 14821817316988637 / 10 ^ 16
  , 10869049643402668 / 10 ^ 16
  , 8456874970815329 / 10 ^ 16
  , 7032986052318423 / 10 ^ 16
  , 6149345007595985 / 10 ^ 16
  , 5545827348285647 / 10 ^ 16
  , 509674562510651 / 10 ^ 15
  , 47521274567031657 / 10 ^ 17 ]

/-
External state of a run, for the determinism claim.  The repository
fixes none of it: parameters are drawn by the library RNG at model
construction (no seed is ever set), the loader shuffles with an
unseeded RNG, the dataset is downloaded from outside, and the numeric
loss of each batch is computed by the library from all of these.
-/

/-- Modelled from the spec: state a training run depends on that no
repository code fixes - the random initial parameters delivered by the
library at nn.Sequential construction (represented by a rational seed
value), the numeric per-batch losses the external library computes from
those parameters and the shuffled external data, and the loader length
determined by the external dataset. -/
structure LibraryEnv where
  initParams : ℚ
  lossValue : ℚ → Nat → Nat → ℚ
  numBatches : Nat

/-- Per-epoch losses printed by a run of the training cell in the given
external environment (ten epochs, per the literal epochs = 10). -/
def observedLosses (env : LibraryEnv) : List ℚ :=
  (runTraining (P := ℚ) (fun p _ => p) env.initParams
    (env.lossValue env.initParams) env.initParams [] env.numBatches 10).printed

/-- Shuffle flag of a DataLoader construction statement. -/
def shuffleFlag : Stmt → Option Bool
  | .assignDataLoader _ _ _ sh => some sh
  | _ => none

/-- Shuffle flag of the DataLoader constructed in a cell. -/
def cellShuffleFlag (c : Cell) : Option Bool :=
  ((flatStmtList c.stmts).filterMap shuffleFlag).head?

/-- Statement-level RNG-seeding detector (torch.manual_seed). -/
def isSeedStmt : Stmt → Bool
  | .manualSeed _ => true
  | _ => false

/-
Variable binding and use, for the cross-cell model-variable claim.
-/

/-- Names a statement binds (Python assignment targets and loop
variables). -/
def assignTargets : Stmt → List String
  | .assignTransformCompose t => [t]
  | .assignMNIST t _ _ => [t]
  | .assignDataLoader t _ _ _ => [t]
  | .assignSequential t _ => [t]
  | .assignCriterion t _ => [t]
  | .assignSGD t _ _ => [t]
  | .assignNextBatch a b _ => [a, b]
  | .assignFlattenView t _ => [t]
  | .assignIndexView t _ _ _ _ => [t]
  | .assignForward t _ _ => [t]
  | .assignLoss t _ _ _ => [t]
  | .assignNatLit t _ => [t]
  | .assignRandn t _ _ => [t]
  | .assignPow t _ _ => [t]
  | .assignMean t _ => [t]
  | .assignExp t _ => [t]
  | .forRange v _ _ _ => [v]
  | .forLoader v1 v2 _ _ _ => [v1, v2]
  | _ => []

/-- Names a statement reads. -/
def readNames : Stmt → List String
  | .assignDataLoader _ ds _ _ => [ds]
  | .assignSGD _ m _ => [m]
  | .assignNextBatch _ _ ld => [ld]
  | .assignFlattenView _ src => [src]
  | .assignIndexView _ src _ _ _ => [src]
  | .resizeInPlace v _ _ => [v]
  | .assignForward _ m inp => [m, inp]
  | .assignLoss _ c o l => [c, o, l]
  | .assignPow _ b _ => [b]
  | .assignMean _ src => [src]
  | .assignExp _ src => [src]
  | .callBackward v => [v]
  | .callZeroGrad o => [o]
  | .callStep o => [o]
  | .augAddItem t l => [t, l]
  | .printCall args => args
  | .printAvgLoss a l => [a, l]
  | .exprCallHelper _ args => args
  | .forRange _ bound _ _ => [bound]
  | .forLoader _ _ ld _ _ => [ld]
  | _ => []

/-- True when some statement of the cell (nested blocks included) binds
the variable. -/
def cellAssigns (v : String) (c : Cell) : Bool :=
  (flatStmtList c.stmts).any (fun s => (assignTargets s).contains v)

/-- True when some statement of the cell (nested blocks included) reads
the variable. -/
def cellReads (v : String) (c : Cell) : Bool :=
  (flatStmtList c.stmts).any (fun s => (readNames s).contains v)

/-- Index of the last cell of the list that binds the variable. -/
def lastAssignerIdx (v : String) (cs : List Cell) : Option Nat :=
  cs.enum.foldl (fun acc ic => if cellAssigns v ic.2 then some ic.1 else acc) none

/-
Concurrency constructs, for the single-threaded claim.
-/

/-- Statement-level concurrency-construct detector: thread or process
spawning, async function definitions, awaits, callback registration. -/
def isConcurrencyStmt : Stmt → Bool
  | .spawnThread => true
  | .spawnProcess => true
  | .asyncFunDef _ => true
  | .awaitCall => true
  | .registerCallback => true
  | _ => false

/-- Modules whose import would bring in threading, multiprocessing, or
asynchronous execution. -/
def concurrencyModules : List String :=
  ["threading", "multiprocessing", "asyncio", "concurrent", "concurrent.futures"]

/-- Statement-level concurrency-import detector. -/
def isConcurrencyImport : Stmt → Bool
  | .importMod m => concurrencyModules.contains m
  | .importFrom m _ => concurrencyModules.contains m
  | _ => false

/-
Claim theorems.
-/

/-- Claim C1, counterexample: it is false that every iteration of the
training loop performs the five steps in the order forward pass, loss,
backward pass, parameter step, gradient reset: that order does not
occur as a subsequence of the phases of the loop body, because the
gradient reset (optimizer.zero_grad()) is the second statement of the
body, before the forward pass, not after the parameter step. -/
theorem claimC1_counterexample :
    isSubseqOf
      [Phase.forwardPhase, Phase.lossPhase, Phase.backwardPhase,
        Phase.stepPhase, Phase.gradResetPhase]
      iterationPhases = false := by decide

/-- Claim C1, amended: every iteration of the training loop performs,
in order and contiguously, gradient reset, forward pass, loss
computation, backward pass, parameter update step, each implemented by
a single framework call with no repository-authored algorithm in
between; the gradient reset opens the iteration (after the framework
flatten call) instead of closing it.  The phases of the body are
exactly flatten, reset, forward, loss, backward, step, accumulate. -/
theorem claimC1_amended :
    containsRun
      [Phase.gradResetPhase, Phase.forwardPhase, Phase.lossPhase,
        Phase.backwardPhase, Phase.stepPhase]
      iterationPhases = true
    ∧ ([Phase.gradResetPhase, Phase.forwardPhase, Phase.lossPhase,
        Phase.backwardPhase, Phase.stepPhase]).all frameworkPhase = true
    ∧ iterationPhases
        = [Phase.flattenPhase, Phase.gradResetPhase, Phase.forwardPhase,
            Phase.lossPhase, Phase.backwardPhase, Phase.stepPhase,
            Phase.accumulatePhase] := by decide

/-- Claim C2: the ten per-epoch training-loss values recorded in the
captured output of the training cell form a strictly decreasing
sequence, from 2.220362721984066 down to 0.47521274567031657. -/
theorem claimC2_losses_strictly_decreasing :
    recordedLosses.length = 10
    ∧ List.Chain' (fun a b => b < a) recordedLosses := by
  constructor
  · rfl
  · norm_num [recordedLosses, List.chain'_cons]

/-- Claim C3: no code cell of the notebook contains a try/except, a
raise, or a class definition (so the repository defines no error values
of its own), and consequently on every cell the exception semantics
with handlers enabled coincides with the always-propagate semantics:
whatever failure a library call raises leaves the cell uncaught and
unhandled by repository code. -/
theorem claimC3_exceptions_propagate :
    notebookCells.all
      (fun c => !(stmtsAny isTryStmt c.stmts || stmtsAny isRaiseStmt c.stmts
        || stmtsAny isClassDefStmt c.stmts)) = true
    ∧ ∀ (oracle : Stmt → Option String) (env : String → Nat) (fuel : Nat)
        (i : Fin notebookCells.length),
        execStmts true oracle env fuel (notebookCells.get i).stmts
          = execStmts false oracle env fuel (notebookCells.get i).stmts := by
  refine ⟨by decide, ?_⟩
  intro oracle env fuel i
  apply (exec_catch_indep oracle env fuel).2.1
  have hall : notebookCells.all (fun c => !(stmtsAny isTryStmt c.stmts)) = true := by
    decide
  have hmem : notebookCells.get i ∈ notebookCells := notebookCells.get_mem i.1 i.2
  have h := List.all_eq_true.mp hall _ hmem
  simpa using h

/-- Claim C4: the data pipeline flattens each 1 x 28 x 28 input image
to a 784-element vector, the layer stack 784 to 128, ReLU, 128 to 64,
ReLU, 64 to 10 turns it into a 10-element class-score vector per image
(in both the cross-entropy cell and the training cell, whose extra
LogSoftmax preserves the size), and within each training iteration the
flatten, forward, loss, backward, and parameter-update phases occur in
that order. -/
theorem claimC4_pipeline_shapes :
    flattenedSize mnistImageDims = 784
    ∧ modelShape trainModelLayers 784 = some 10
    ∧ modelShape firstModelLayers 784 = some 10
    ∧ isSubseqOf
        [Phase.flattenPhase, Phase.forwardPhase, Phase.lossPhase,
          Phase.backwardPhase, Phase.stepPhase]
        iterationPhases = true := by decide

/-- Claim C5: the DataLoader is constructed with shuffle=True, no
notebook statement seeds the random number generator, and the printed
per-epoch losses are not a function of the repository code alone: two
runs in different external library states (random parameter
initialization, external data) can print different loss values. -/
theorem claimC5_run_nondeterminism :
    cellShuffleFlag importsDataCell = some true
    ∧ notebookCells.all (fun c => !stmtsAny isSeedStmt c.stmts) = true
    ∧ ∃ e1 e2 : LibraryEnv, observedLosses e1 ≠ observedLosses e2 := by
  refine ⟨by decide, by decide,
    ⟨⟨0, fun _ _ _ => 0, 1⟩, ⟨0, fun _ _ _ => 1, 1⟩, ?_⟩⟩
  have h1 : observedLosses ⟨0, fun _ _ _ => 0, 1⟩
      = (List.range 10).map (fun _ => (0 : ℚ)) := by
    rw [observedLosses, runTraining_printed]
    simp
  have h2 : observedLosses ⟨0, fun _ _ _ => 1, 1⟩
      = (List.range 10).map (fun _ => (1 : ℚ)) := by
    rw [observedLosses, runTraining_printed]
    simp
  rw [h1, h2]
  intro h
  have h0 := congrArg (fun l => l.head?) h
  simp [List.range_succ] at h0

/-- Claim C6: under sequential cell execution the model evaluated in
the prediction cell is the object trained in place by the training
cell: among the cells before the prediction cell the last one binding
the variable model is the training cell (index 14 of 0..15), and the
prediction cell reads model without rebinding it. -/
theorem claimC6_model_reused_across_cells :
    notebookCells.get? 14 = some trainingLoopCell
    ∧ notebookCells.get? 15 = some predictionCell
    ∧ lastAssignerIdx "model" (notebookCells.take 15) = some 14
    ∧ cellAssigns "model" trainingLoopCell = true
    ∧ cellAssigns "model" predictionCell = false
    ∧ cellReads "model" predictionCell = true := by
  exact ⟨rfl, rfl, by decide, by decide, by decide, by decide⟩

/-- Claim C7: no notebook statement spawns a thread or process, defines
an async function, awaits, or registers a callback, and no cell imports
a threading, multiprocessing, or asynchronous-execution module: all
repository code is straight-line synchronous cell evaluation. -/
theorem claimC7_single_threaded :
    notebookCells.all (fun c => !stmtsAny isConcurrencyStmt c.stmts) = true
    ∧ notebookCells.all (fun c => !stmtsAny isConcurrencyImport c.stmts) = true := by
  decide

/-- Claim C8: for every epoch, the value printed as Training loss is
the sum of the per-batch losses of exactly that epoch divided by the
loader length: running_loss restarts at 0 each epoch, the for/else
print appends exactly one average per epoch (the loop body contains no
break, so the else branch always runs), and no batch loss of an
earlier epoch leaks into a later printed average. -/
theorem claimC8_printed_epoch_averages (P : Type)
    (upd : P → List (Nat × Nat) → P) (fresh : P) (lossOf : Nat → Nat → ℚ)
    (p0 : P) (g0 : List (Nat × Nat)) (n epochs : Nat) :
    (runTraining upd fresh lossOf p0 g0 n epochs).printed
      = (List.range epochs).map
          (fun e => ((List.range n).map (lossOf e)).sum / (n : ℚ))
    ∧ (runTraining upd fresh lossOf p0 g0 n epochs).printed.length = epochs
    ∧ stmtsAny isBreakStmt trainingLoopCell.stmts = false := by
  refine ⟨runTraining_printed upd fresh lossOf p0 g0 n epochs, ?_, by decide⟩
  rw [runTraining_printed upd fresh lossOf p0 g0 n epochs]
  simp

/-- Claim C9: in every iteration optimizer.zero_grad() runs before the
forward and backward passes, so the gradient stored when
optimizer.step() runs is exactly the single contribution of the
current batch: the log of gradients seen by the step calls is the list
of singletons [(epoch, batch)] over all epochs and batches, whatever
gradient g0 was present before training, and the reset, forward,
backward, step phases occur in that order in the body. -/
theorem claimC9_step_sees_single_batch_gradient (P : Type)
    (upd : P → List (Nat × Nat) → P) (fresh : P) (lossOf : Nat → Nat → ℚ)
    (p0 : P) (g0 : List (Nat × Nat)) (n epochs : Nat) :
    (runTraining upd fresh lossOf p0 g0 n epochs).stepLog
      = ((List.range epochs).map
          (fun e => (List.range n).map (fun b => [(e, b)]))).flatten
    ∧ isSubseqOf
        [Phase.gradResetPhase, Phase.forwardPhase, Phase.backwardPhase,
          Phase.stepPhase]
        iterationPhases = true :=
  ⟨runTraining_stepLog upd fresh lossOf p0 g0 n epochs, by decide⟩

/-- Claim C10: the prediction cell evaluates the model inside a
torch.no_grad() block and only reads it: running all statements of the
cell (the no_grad block contents included) leaves the parameters and
the gradient field of the state unchanged, the forward pass of the
cell sits inside the no_grad block, and the cell reads the model
variable without rebinding it. -/
theorem claimC10_prediction_is_read_only (P : Type)
    (upd : P → List (Nat × Nat) → P) (fresh : P) (n : Nat) (lv : ℚ)
    (tag : Nat × Nat) (s : TrainState P) :
    ((flatStmtList predictionCell.stmts).foldl
        (fun st t => applyFlatStmt upd fresh n lv tag t st) s).params = s.params
    ∧ ((flatStmtList predictionCell.stmts).foldl
        (fun st t => applyFlatStmt upd fresh n lv tag t st) s).grad = s.grad
    ∧ stmtsAny
        (fun t => match t with
          | .withNoGrad bd =>
              stmtsAny (fun u => match u with
                | .assignForward _ _ _ => true
                | _ => false) bd
          | _ => false) predictionCell.stmts = true
    ∧ cellAssigns "model" predictionCell = false
    ∧ cellReads "model" predictionCell = true := by
  refine ⟨?_, ?_, by decide, by decide, by decide⟩ <;> (cases s; rfl)
